import Mathlib

set_option maxRecDepth 40000

/-!
Verification of the StreamPay backend payment protocol.

Shallow embedding of:
  * the `StreamPayEscrow` Solidity contract shipped with the repository
    (src/web3-apis/utility.js, appended contract source): `deposit`,
    `withdraw`, `executePaymentIntent`, with uint256 checked arithmetic
    rendered as explicit bounds against 2 ^ 256 and `require`-revert
    rendered as `Except.error` (a reverted call leaves state unchanged,
    which the transaction wrapper `settleTx` makes explicit);
  * the relayer orchestrator `executePayment` (src/web3-apis/payment.js),
    including its JavaScript value coercions (`BigInt` normalisation of
    `amount`, `deadline`, `nonce`, falsy checks on the request fields) and
    the ethers ABI validation of the bytes32 `sessionId` at the first
    contract call that receives it (`isHexBytes32`): short non-hex strings
    used in contract-level runs stand for valid bytes32 words, while the
    orchestrator-level runs that reach the encoding use genuine
    "0x" + 64-hex-digit strings or, deliberately, the empty string.

Signature recovery (`_hashTypedDataV4(structHash).recover(intent.signature)`)
is external library cryptography, not part of this repository; it is a
deterministic function of the intent fields (the digest covers payer,
sessionId, amount, deadline and nonce) and of the signature bytes, so it
is modelled as an explicit function parameter `recover : PaymentIntent →
Address` threaded through every operation. The USDC token transfers
(`safeTransfer` / `safeTransferFrom`) are the external custody mechanism,
out of scope per the specification.
-/

namespace StreamPay

/-- Ethereum addresses, modelled as naturals. -/
abbrev Address := Nat

/-- Session identifiers (bytes32 on chain, a string on the wire). -/
abbrev SessionId := String

/-- The contract's `PaymentIntent` struct (payer, sessionId, amount,
deadline, nonce, signature); `signature` stands for the opaque signature
bytes. -/
structure PaymentIntent where
  payer : Address
  sessionId : SessionId
  amount : Nat
  deadline : Nat
  nonce : Nat
  signature : Nat
deriving DecidableEq, Repr

/-- The contract's mutable storage: `escrowBalances`, `nonces`,
`settledSessions` (all Solidity mappings default to zero / false). -/
structure EscrowState where
  escrowBalances : Address → Nat
  nonces : Address → Nat
  settledSessions : SessionId → Bool

/-- `deposit(uint256 amount)`: `require(amount > 0)`, then
`escrowBalances[msg.sender] += amount` with Solidity 0.8 checked
addition (revert on overflow past `2 ^ 256 - 1`). The USDC
`safeTransferFrom` is external custody and is not modelled. -/
def deposit (user : Address) (amount : Nat) (s : EscrowState) :
    Except String EscrowState :=
  if 0 < amount then
    if s.escrowBalances user + amount < 2 ^ 256 then
      Except.ok { s with
        escrowBalances := Function.update s.escrowBalances user
          (s.escrowBalances user + amount) }
    else Except.error "arithmetic overflow"
  else Except.error "Amount must be > 0"

/-- `withdraw(uint256 amount)`: `require(amount > 0)`,
`require(escrowBalances[msg.sender] >= amount)`, then the debit. The
USDC `safeTransfer` back to the user is external custody. -/
def withdraw (user : Address) (amount : Nat) (s : EscrowState) :
    Except String EscrowState :=
  if 0 < amount then
    if amount ≤ s.escrowBalances user then
      Except.ok { s with
        escrowBalances := Function.update s.escrowBalances user
          (s.escrowBalances user - amount) }
    else Except.error "Insufficient balance"
  else Except.error "Amount must be > 0"

/-- `executePaymentIntent(intent, serviceType)`, requires in source
order: deadline (`block.timestamp <= intent.deadline`), session not
settled, recovered signer equals `intent.payer`, `intent.nonce ==
nonces[intent.payer]`; then the state updates `nonces[intent.payer]++`
(checked increment) and `settledSessions[intent.sessionId] = true`;
then `require(escrowBalances[intent.payer] >= intent.amount)` and the
debit. The final `safeTransfer` to the service wallet is external
custody; `serviceType` only feeds the emitted event. -/
def executePaymentIntent (recover : PaymentIntent → Address) (now : Nat)
    (intent : PaymentIntent) (s : EscrowState) : Except String EscrowState :=
  if now ≤ intent.deadline then
    if s.settledSessions intent.sessionId then Except.error "Already settled"
    else
      if recover intent = intent.payer then
        if intent.nonce = s.nonces intent.payer then
          if s.nonces intent.payer + 1 < 2 ^ 256 then
            let sA : EscrowState := { s with
              nonces := Function.update s.nonces intent.payer
                (s.nonces intent.payer + 1) }
            let sB : EscrowState := { sA with
              settledSessions := Function.update sA.settledSessions
                intent.sessionId true }
            if intent.amount ≤ sB.escrowBalances intent.payer then
              Except.ok { sB with
                escrowBalances := Function.update sB.escrowBalances intent.payer
                  (sB.escrowBalances intent.payer - intent.amount) }
            else Except.error "Insufficient balance"
          else Except.error "arithmetic overflow"
        else Except.error "Invalid nonce"
      else Except.error "Invalid signature"
  else Except.error "Intent expired"

/-- The storage produced by a successful `executePaymentIntent`: the
payer debited by the amount, the payer's nonce incremented, the session
marked settled. -/
def settledState (intent : PaymentIntent) (s : EscrowState) : EscrowState :=
  { escrowBalances := Function.update s.escrowBalances intent.payer
      (s.escrowBalances intent.payer - intent.amount)
    nonces := Function.update s.nonces intent.payer
      (s.nonces intent.payer + 1)
    settledSessions := Function.update s.settledSessions
      intent.sessionId true }

/-- EVM transaction semantics around `executePaymentIntent`: a revert
(`Except.error`) leaves the pre-call storage in place; the Bool records
whether the call succeeded. -/
def settleTx (recover : PaymentIntent → Address) (now : Nat)
    (intent : PaymentIntent) (s : EscrowState) : EscrowState × Bool :=
  match executePaymentIntent recover now intent s with
  | Except.ok s2 => (s2, true)
  | Except.error _ => (s, false)

/-- The five settlement conditions named by the specification (section 3
invariants), all read off the pre-call storage: valid signature by the
payer, nonce agreement, deadline not passed, session not settled,
sufficient balance. -/
def settleChecks (recover : PaymentIntent → Address) (now : Nat)
    (intent : PaymentIntent) (s : EscrowState) : Prop :=
  recover intent = intent.payer ∧
  intent.nonce = s.nonces intent.payer ∧
  now ≤ intent.deadline ∧
  s.settledSessions intent.sessionId = false ∧
  intent.amount ≤ s.escrowBalances intent.payer

instance settleChecksDecidable (recover : PaymentIntent → Address) (now : Nat)
    (intent : PaymentIntent) (s : EscrowState) :
    Decidable (settleChecks recover now intent s) := by
  unfold settleChecks; infer_instance

end StreamPay

namespace StreamPay

/-- Execution events of `executePaymentIntent`, in the source's order:
the five `require` checks, the two storage writes that precede the
balance check, the balance debit, and the final value transfer to the
service wallet. -/
inductive Ev where
  | checkDeadline
  | checkSettled
  | checkSignature
  | checkNonce
  | checkBalance
  | effNonceIncrement
  | effSessionInsert
  | effBalanceDebit
  | effTransferToService
deriving DecidableEq, Repr

/-- Whether an event is one of the five validation checks (as opposed
to a state effect). -/
def Ev.isCheck : Ev → Bool
  | .checkDeadline | .checkSettled | .checkSignature | .checkNonce | .checkBalance => true
  | _ => false

/-- The complete event sequence of a successful `executePaymentIntent`,
read off the source: four checks, then the nonce increment and session
insert, then the balance check, then the debit and the transfer. -/
def settleEventOrder : List Ev :=
  [.checkDeadline, .checkSettled, .checkSignature, .checkNonce,
   .effNonceIncrement, .effSessionInsert, .checkBalance,
   .effBalanceDebit, .effTransferToService]

/-- Instrumented `executePaymentIntent`: the same control flow, also
returning the list of check/effect events in the order the source
executes them (truncated at the first failed `require`). -/
def executePaymentIntentEvents (recover : PaymentIntent → Address) (now : Nat)
    (intent : PaymentIntent) (s : EscrowState) :
    List Ev × Except String EscrowState :=
  if now ≤ intent.deadline then
    if s.settledSessions intent.sessionId then
      ([.checkDeadline, .checkSettled], Except.error "Already settled")
    else
      if recover intent = intent.payer then
        if intent.nonce = s.nonces intent.payer then
          if s.nonces intent.payer + 1 < 2 ^ 256 then
            let sA : EscrowState := { s with
              nonces := Function.update s.nonces intent.payer
                (s.nonces intent.payer + 1) }
            let sB : EscrowState := { sA with
              settledSessions := Function.update sA.settledSessions
                intent.sessionId true }
            if intent.amount ≤ sB.escrowBalances intent.payer then
              ([.checkDeadline, .checkSettled, .checkSignature, .checkNonce,
                .effNonceIncrement, .effSessionInsert, .checkBalance,
                .effBalanceDebit, .effTransferToService],
               Except.ok { sB with
                 escrowBalances := Function.update sB.escrowBalances intent.payer
                   (sB.escrowBalances intent.payer - intent.amount) })
            else
              ([.checkDeadline, .checkSettled, .checkSignature, .checkNonce,
                .effNonceIncrement, .effSessionInsert, .checkBalance],
               Except.error "Insufficient balance")
          else
            ([.checkDeadline, .checkSettled, .checkSignature, .checkNonce],
             Except.error "arithmetic overflow")
        else
          ([.checkDeadline, .checkSettled, .checkSignature, .checkNonce],
           Except.error "Invalid nonce")
      else
        ([.checkDeadline, .checkSettled, .checkSignature],
         Except.error "Invalid signature")
  else ([.checkDeadline], Except.error "Intent expired")

/-- Position of an event in a list (length of the list when absent). -/
def idxIn (l : List Ev) (e : Ev) : Nat :=
  match l with
  | [] => 0
  | x :: xs => if x = e then 0 else idxIn xs e + 1

/-- The checks-then-effects discipline claimed for a trace: once the
first effect has executed, no further check executes, i.e. every
validation check precedes every state effect. -/
def evsChecksFirst (evs : List Ev) : Bool :=
  (evs.dropWhile Ev.isCheck).all fun e => !e.isCheck

/-- A signature environment in which every intent recovers to its own
payer (all signatures valid); used for concrete runs. -/
def goodRecover : PaymentIntent → Address := fun i => i.payer

/-- A concrete account state: every account holds 1000 units, all
nonces 0, no session settled. -/
def stateA : EscrowState :=
  { escrowBalances := fun _ => 1000
    nonces := fun _ => 0
    settledSessions := fun _ => false }

/-- A concrete intent: payer 7 pays 100 with deadline 50, nonce 0. -/
def intentA : PaymentIntent :=
  { payer := 7, sessionId := "s1", amount := 100, deadline := 50
    nonce := 0, signature := 0 }

/-- A second intent for the same session "s1", carrying the nonce that
is current after `intentA` settles (nonce 1). -/
def intentB : PaymentIntent :=
  { payer := 7, sessionId := "s1", amount := 100, deadline := 50
    nonce := 1, signature := 0 }

/-- An intent whose nonce (3) does not match the stored nonce (0). -/
def intentBadNonce : PaymentIntent :=
  { payer := 7, sessionId := "s2", amount := 100, deadline := 50
    nonce := 3, signature := 0 }

/-- A state in which every session is already settled. -/
def stateSettled : EscrowState :=
  { escrowBalances := fun _ => 1000
    nonces := fun _ => 0
    settledSessions := fun _ => true }

/-- One operation of a single account against the escrow: a deposit, a
withdrawal, or the submission of a payment intent (with the account as
payer) at the given time. -/
inductive AccountOp where
  | dep (amount : Nat)
  | wd (amount : Nat)
  | pay (now : Nat) (sessionId : SessionId)
      (amount deadline nonce signature : Nat)
deriving DecidableEq, Repr

/-- Apply one operation of account `a` with transaction semantics (a
reverted call leaves the state unchanged); the Bool records success. -/
def applyAccountOp (recover : PaymentIntent → Address) (a : Address)
    (s : EscrowState) : AccountOp → EscrowState × Bool
  | .dep amt =>
    match deposit a amt s with
    | Except.ok s2 => (s2, true)
    | Except.error _ => (s, false)
  | .wd amt =>
    match withdraw a amt s with
    | Except.ok s2 => (s2, true)
    | Except.error _ => (s, false)
  | .pay now sid amt dl non sig =>
    settleTx recover now ⟨a, sid, amt, dl, non, sig⟩ s

/-- Run a sequence of operations of account `a`. -/
def runLedger (recover : PaymentIntent → Address) (a : Address) :
    EscrowState → List AccountOp → EscrowState
  | s, [] => s
  | s, op :: rest => runLedger recover a (applyAccountOp recover a s op).1 rest

/-- Totals over the successful operations of a run: amounts deposited,
withdrawn and settled, and the number of successful settlements. -/
structure OpTotals where
  deposits : Nat
  withdrawals : Nat
  settled : Nat
  settleCount : Nat
deriving DecidableEq, Repr

/-- Collect the totals of the successful operations of a run. -/
def runTotals (recover : PaymentIntent → Address) (a : Address) :
    EscrowState → List AccountOp → OpTotals
  | _, [] => ⟨0, 0, 0, 0⟩
  | s, op :: rest =>
    let t := runTotals recover a (applyAccountOp recover a s op).1 rest
    if (applyAccountOp recover a s op).2 then
      match op with
      | .dep amt => ⟨t.deposits + amt, t.withdrawals, t.settled, t.settleCount⟩
      | .wd amt => ⟨t.deposits, t.withdrawals + amt, t.settled, t.settleCount⟩
      | .pay _ _ amt _ _ _ =>
        ⟨t.deposits, t.withdrawals, t.settled + amt, t.settleCount + 1⟩
    else t

/-- The all-zero genesis state (Solidity mappings default to zero). -/
def zeroState : EscrowState :=
  { escrowBalances := fun _ => 0
    nonces := fun _ => 0
    settledSessions := fun _ => false }

/-- A concrete run for account 7: deposit 1000, settle 100 on session
"s1", withdraw 200. -/
def opsA : List AccountOp :=
  [AccountOp.dep 1000, AccountOp.pay 5 "s1" 100 50 0 0, AccountOp.wd 200]

/-- A JavaScript value as it can arrive in a JSON request field:
a number (taken integral, amounts are minor units), a string, a missing
value (`undefined` or `null`, both of which make the source's
`amount?.toString?.() ?? 0` produce `0`), or some other object, carried
by the string its `toString()` yields (for a plain object,
"[object Object]"). -/
inductive JsVal where
  | num (n : Int)
  | str (s : String)
  | missing
  | obj (toStr : String)
deriving DecidableEq, Repr

/-- Value of a decimal digit character, if it is one. -/
def digitVal? (c : Char) : Option Nat :=
  if c.isDigit then some (c.toNat - 48) else none

/-- Value of a decimal digit string (accumulator form). -/
def decValAux : List Char → Nat → Option Nat
  | [], acc => some acc
  | c :: cs, acc =>
    match digitVal? c with
    | some d => decValAux cs (acc * 10 + d)
    | none => none

/-- Model of the JavaScript `BigInt(string)` conversion: surrounding
whitespace is ignored, the empty string yields 0, a decimal digit
string yields its value, anything else throws (`none`). (Hex and signed
forms, which JS also accepts, are not exercised here.) -/
def bigIntOfString (s : String) : Option Int :=
  let cs := s.data.dropWhile (fun c => c.isWhitespace)
  let cs2 := (cs.reverse.dropWhile (fun c => c.isWhitespace)).reverse
  match cs2 with
  | [] => some 0
  | _ => (decValAux cs2 0).map Int.ofNat

/-- The source's normalisation (payment.js lines 32-34 and 69-80):
`typeof v === 'string' || typeof v === 'number' ? BigInt(v) :
BigInt(v?.toString?.() ?? 0)`. A missing value becomes 0; a number or a
numeric string converts; any other value converts via its string form
and throws when that form is not numeric. -/
def normalizeBigInt : JsVal → Option Int
  | .num n => some n
  | .str s => bigIntOfString s
  | .missing => some 0
  | .obj t => bigIntOfString t

/-- Hexadecimal digit characters. -/
def hexDigit (c : Char) : Bool :=
  c.isDigit || ('a' ≤ c && c ≤ 'f') || ('A' ≤ c && c ≤ 'F')

/-- The ethers BytesLike validation of a `bytes32` argument: a hex
string "0x" followed by exactly 64 hexadecimal digits. Any other
string — the empty string in particular — makes the ABI encoder throw
INVALID_ARGUMENT ("invalid BytesLike value") at the contract call that
receives it, which the handler's try/catch reports as a 500. -/
def isHexBytes32 (s : String) : Bool :=
  match s.data with
  | '0' :: 'x' :: rest => rest.length == 64 && rest.all hexDigit
  | _ => false

/-- A payment intent as it arrives in the request body, before
normalisation: `amount`, `deadline` and `nonce` are raw JS values. -/
structure JsIntent where
  payer : Address
  sessionId : SessionId
  amount : JsVal
  deadline : JsVal
  nonce : JsVal
  signature : Nat
deriving DecidableEq, Repr

/-- Encoding of a normalised BigInt as a uint256 calldata word: the
ethers ABI encoder rejects negative or out-of-range values. -/
def toUint256 (v : Int) : Option Nat :=
  if 0 ≤ v ∧ v < 2 ^ 256 then some v.toNat else none

/-- The `normalizedIntent` struct the orchestrator submits (payment.js
lines 69-80), with the three numeric fields normalised and encoded as
uint256. The source builds this as a plain object with no validation of
its own; the `sessionId` string is validated as a bytes32 BytesLike
earlier, when `isSessionSettled` is called (see `executePayment`), so
every intent that reaches submission carries an already-validated
session id. -/
def normalizedIntent (pi : JsIntent) : Option PaymentIntent :=
  match normalizeBigInt pi.amount, normalizeBigInt pi.deadline,
      normalizeBigInt pi.nonce with
  | some a, some d, some n =>
    match toUint256 a, toUint256 d, toUint256 n with
    | some a2, some d2, some n2 =>
      some ⟨pi.payer, pi.sessionId, a2, d2, n2, pi.signature⟩
    | _, _, _ => none
  | _, _, _ => none

/-- A request body for the orchestrator's execute endpoint
(`{ paymentIntent, serviceType, metadata }`; the metadata is only
echoed back and is omitted). `none` stands for a missing field. -/
structure PaymentRequest where
  paymentIntent : Option JsIntent
  serviceType : Option String
deriving DecidableEq, Repr

/-- The orchestrator's observable outcome: 400 "Missing required
fields", 400 insufficient balance (with balance and required amount),
400 already settled, 500 caught error (conversion, encoding, or
contract revert, with the message), or the 200 success response. -/
inductive PaymentOutcome where
  | malformed
  | insufficientBalance (balance : Nat) (required : Int)
  | alreadySettled
  | txError (msg : String)
  | success (amount : Int) (serviceType : String)
deriving DecidableEq, Repr

/-- Whether an outcome is one of the two optimistic pre-check
rejections (insufficient balance / already settled). -/
def PaymentOutcome.isPreCheckReject : PaymentOutcome → Bool
  | .insufficientBalance _ _ => true
  | .alreadySettled => true
  | _ => false

/-- Whether an outcome is the insufficient-balance rejection. -/
def PaymentOutcome.isInsufficient : PaymentOutcome → Bool
  | .insufficientBalance _ _ => true
  | _ => false

/-- The orchestrator's optimistic pre-check on a normalised intent,
exactly the two tests payment.js performs before submitting (lines
47-54: `BigInt(balance) < normalizedAmount`; lines 58-62: session
already settled). -/
def orchestratorPreCheck (intent : PaymentIntent) (s : EscrowState) : Bool :=
  if s.escrowBalances intent.payer < intent.amount then false
  else if s.settledSessions intent.sessionId then false
  else true

/-- The orchestrator's `executePayment` handler (payment.js), run
against ledger state `s` at time `now`: destructure the body; reject
with 400 when `paymentIntent` or `serviceType` is falsy (missing, or
the empty string); normalise the amount (a throw here is caught by the
surrounding try/catch and reported as a 500); read the payer's balance
and reject when it is below the amount; query the settled status — the
`isSessionSettled(sessionId)` call first encodes `sessionId` as a
bytes32, and a non-BytesLike value (such as the empty string) makes
ethers throw there, caught as a 500 with no submission — and reject
when the session is already settled; normalise and encode the full
intent; submit it to the contract and report the revert message (500)
or the success payload. The returned state is the ledger state after
the call. -/
def executePayment (recover : PaymentIntent → Address) (now : Nat)
    (req : PaymentRequest) (s : EscrowState) : PaymentOutcome × EscrowState :=
  match req.paymentIntent, req.serviceType with
  | none, _ => (.malformed, s)
  | some _, none => (.malformed, s)
  | some pi, some svc =>
    if svc = "" then (.malformed, s)
    else
      match normalizeBigInt pi.amount with
      | none => (.txError "Cannot convert to a BigInt", s)
      | some amt =>
        let balance := s.escrowBalances pi.payer
        if (balance : Int) < amt then (.insufficientBalance balance amt, s)
        else
          if isHexBytes32 pi.sessionId then
            if s.settledSessions pi.sessionId then (.alreadySettled, s)
            else
              match normalizedIntent pi with
              | none => (.txError "failed to encode intent", s)
              | some ci =>
                match executePaymentIntent recover now ci s with
                | Except.ok s2 => (.success amt svc, s2)
                | Except.error msg => (.txError msg, s)
          else (.txError "invalid BytesLike value", s)

/-- A raw request whose intent mirrors `intentA` (all fields numeric). -/
def jsIntentA : JsIntent :=
  { payer := 7, sessionId := "s1", amount := JsVal.num 100
    deadline := JsVal.num 50, nonce := JsVal.num 0, signature := 0 }

/-- A raw request intent with a stale nonce (5 instead of 0), carrying
a well-formed bytes32 session id. -/
def jsIntentStaleNonce : JsIntent :=
  { payer := 7
    sessionId :=
      "0x0000000000000000000000000000000000000000000000000000000000000002"
    amount := JsVal.num 100
    deadline := JsVal.num 50, nonce := JsVal.num 5, signature := 0 }

/-- A well-formed bytes32 session id for the zero-amount request. -/
def sidZero : SessionId :=
  "0x0000000000000000000000000000000000000000000000000000000000000011"

/-- A raw request intent with amount 0 (not a positive number) and a
well-formed bytes32 session id. -/
def jsIntentZeroAmount : JsIntent :=
  { payer := 7, sessionId := sidZero, amount := JsVal.num 0
    deadline := JsVal.num 50, nonce := JsVal.num 0, signature := 0 }

/-- A raw request intent with an empty session id (not a BytesLike
value, so the ethers bytes32 encoding of it throws). -/
def jsIntentEmptySession : JsIntent :=
  { payer := 7, sessionId := "", amount := JsVal.num 100
    deadline := JsVal.num 50, nonce := JsVal.num 0, signature := 0 }

/-- A raw request intent with no amount field. -/
def jsIntentNoAmount : JsIntent :=
  { payer := 7
    sessionId :=
      "0x0000000000000000000000000000000000000000000000000000000000000003"
    amount := JsVal.missing
    deadline := JsVal.num 50, nonce := JsVal.num 0, signature := 0 }

/-- A raw request intent whose amount is a plain object, so that its
string form is "[object Object]". -/
def jsIntentObjAmount : JsIntent :=
  { payer := 7, sessionId := "s4", amount := JsVal.obj "[object Object]"
    deadline := JsVal.num 50, nonce := JsVal.num 0, signature := 0 }

/-- The normalised contract intent of `jsIntentStaleNonce`. -/
def ciStale : PaymentIntent :=
  { payer := 7
    sessionId :=
      "0x0000000000000000000000000000000000000000000000000000000000000002"
    amount := 100, deadline := 50
    nonce := 5, signature := 0 }

/-- A state in which every account holds only 50 units. -/
def state50 : EscrowState :=
  { escrowBalances := fun _ => 50
    nonces := fun _ => 0
    settledSessions := fun _ => false }

end StreamPay

namespace StreamPay

/-- Success characterisation of `executePaymentIntent`: the call returns
`ok` exactly when deadline, settled-session, signature, nonce, checked
increment and balance conditions hold on the entry storage, and then the
result is `settledState intent s`. (The balance test in the source reads
the storage after the nonce and session writes, but those writes do not
touch `escrowBalances`, so it equals the entry balance.) -/
theorem executePaymentIntent_ok_iff
    (recover : PaymentIntent → Address) (now : Nat) (intent : PaymentIntent)
    (s s2 : EscrowState) :
    executePaymentIntent recover now intent s = Except.ok s2 ↔
      (now ≤ intent.deadline ∧
       s.settledSessions intent.sessionId = false ∧
       recover intent = intent.payer ∧
       intent.nonce = s.nonces intent.payer ∧
       s.nonces intent.payer + 1 < 2 ^ 256 ∧
       intent.amount ≤ s.escrowBalances intent.payer ∧
       s2 = settledState intent s) := by
  unfold executePaymentIntent settledState
  split_ifs with h1 h2 h3 h4 h5
  · constructor
    · intro h; simp at h
    · rintro ⟨-, hB, -⟩; rw [h2] at hB; cases hB
  · dsimp only
    split_ifs with h6
    · constructor
      · intro h
        have hs2 := Except.ok.inj h
        refine ⟨h1, ?_, h3, h4, h5, h6, hs2.symm⟩
        simpa using h2
      · rintro ⟨-, -, -, -, -, -, hG⟩; rw [hG]
    · constructor
      · intro h; simp at h
      · rintro ⟨-, -, -, -, -, hF, -⟩; exact h6 hF
  · constructor
    · intro h; simp at h
    · rintro ⟨-, -, -, -, hE, -⟩; exact h5 hE
  · constructor
    · intro h; simp at h
    · rintro ⟨-, -, -, hD, -⟩; exact h4 hD
  · constructor
    · intro h; simp at h
    · rintro ⟨-, -, hC, -⟩; exact h3 hC
  · constructor
    · intro h; simp at h
    · rintro ⟨hA, -⟩; exact h1 hA

/-- Success characterisation of `deposit`. -/
theorem deposit_ok_iff (user : Address) (amount : Nat) (s s2 : EscrowState) :
    deposit user amount s = Except.ok s2 ↔
      (0 < amount ∧ s.escrowBalances user + amount < 2 ^ 256 ∧
       s2 = { s with
         escrowBalances := Function.update s.escrowBalances user
           (s.escrowBalances user + amount) }) := by
  unfold deposit
  split_ifs with h1 h2
  · constructor
    · intro h; exact ⟨h1, h2, (Except.ok.inj h).symm⟩
    · rintro ⟨-, -, hG⟩; rw [hG]
  · constructor
    · intro h; simp at h
    · rintro ⟨-, hB, -⟩; exact h2 hB
  · constructor
    · intro h; simp at h
    · rintro ⟨hA, -⟩; exact h1 hA

/-- Success characterisation of `withdraw`. -/
theorem withdraw_ok_iff (user : Address) (amount : Nat) (s s2 : EscrowState) :
    withdraw user amount s = Except.ok s2 ↔
      (0 < amount ∧ amount ≤ s.escrowBalances user ∧
       s2 = { s with
         escrowBalances := Function.update s.escrowBalances user
           (s.escrowBalances user - amount) }) := by
  unfold withdraw
  split_ifs with h1 h2
  · constructor
    · intro h; exact ⟨h1, h2, (Except.ok.inj h).symm⟩
    · rintro ⟨-, -, hG⟩; rw [hG]
  · constructor
    · intro h; simp at h
    · rintro ⟨-, hB, -⟩; exact h2 hB
  · constructor
    · intro h; simp at h
    · rintro ⟨hA, -⟩; exact h1 hA

/-- The instrumented executor computes the same result as
`executePaymentIntent`; the event list is pure instrumentation. -/
theorem executePaymentIntentEvents_sound (recover : PaymentIntent → Address)
    (now : Nat) (intent : PaymentIntent) (s : EscrowState) :
    (executePaymentIntentEvents recover now intent s).2 =
      executePaymentIntent recover now intent s := by
  unfold executePaymentIntentEvents executePaymentIntent
  dsimp only
  split_ifs <;> rfl

/-- C1: the settle operation commits the balance debit, the nonce
increment and the session-registry insert only when all five conditions
(valid signature, nonce agreement, deadline not passed, session not yet
settled, sufficient balance) hold at commit time, and when any of the
five fails the transaction rejects with the payer's balance, the
payer's nonce and the session registry exactly as they were before the
call. -/
theorem settle_atomicity (recover : PaymentIntent → Address) (now : Nat)
    (intent : PaymentIntent) (s : EscrowState) :
    ((settleTx recover now intent s).2 = true →
        settleChecks recover now intent s) ∧
    (¬ settleChecks recover now intent s →
        settleTx recover now intent s = (s, false)) := by
  constructor
  · intro h
    unfold settleTx at h
    cases hE : executePaymentIntent recover now intent s with
    | ok s2 =>
      rw [executePaymentIntent_ok_iff] at hE
      exact ⟨hE.2.2.1, hE.2.2.2.1, hE.1, hE.2.1, hE.2.2.2.2.2.1⟩
    | error m =>
      rw [hE] at h
      simp at h
  · intro hnot
    unfold settleTx
    cases hE : executePaymentIntent recover now intent s with
    | ok s2 =>
      exfalso
      rw [executePaymentIntent_ok_iff] at hE
      exact hnot ⟨hE.2.2.1, hE.2.2.2.1, hE.1, hE.2.1, hE.2.2.2.2.2.1⟩
    | error m => rfl

/-- Witness for C1: a concrete intent whose nonce (3) mismatches the
stored nonce (0) is rejected and the state is returned unchanged. -/
theorem settle_atomicity_witness :
    settleTx goodRecover 5 intentBadNonce stateA = (stateA, false) :=
  (settle_atomicity goodRecover 5 intentBadNonce stateA).2 (by decide)

/-- C8: the deadline comparison is inclusive: an intent whose deadline
equals the current time passes the deadline check and, with the other
conditions holding, is accepted; an intent whose deadline is one time
unit before the current time is rejected with "Intent expired". -/
theorem deadline_boundary (recover : PaymentIntent → Address) (now : Nat)
    (intent : PaymentIntent) (s : EscrowState) :
    (intent.deadline = now →
      recover intent = intent.payer →
      intent.nonce = s.nonces intent.payer →
      s.settledSessions intent.sessionId = false →
      s.nonces intent.payer + 1 < 2 ^ 256 →
      intent.amount ≤ s.escrowBalances intent.payer →
      executePaymentIntent recover now intent s =
        Except.ok (settledState intent s)) ∧
    (now = intent.deadline + 1 →
      executePaymentIntent recover now intent s =
        Except.error "Intent expired") := by
  constructor
  · intro hd hsig hn hset hov hbal
    rw [executePaymentIntent_ok_iff]
    exact ⟨by omega, hset, hsig, hn, hov, hbal, rfl⟩
  · intro hnow
    unfold executePaymentIntent
    rw [if_neg (by omega)]

/-- Witness for C8: at current time 50, intent with deadline 50 is
accepted; at current time 51 the same intent is rejected as expired. -/
theorem deadline_boundary_witness :
    executePaymentIntent goodRecover 50 intentA stateA =
      Except.ok (settledState intentA stateA) ∧
    executePaymentIntent goodRecover 51 intentA stateA =
      Except.error "Intent expired" :=
  ⟨(deadline_boundary goodRecover 50 intentA stateA).1 rfl rfl rfl rfl
      (by decide) (by decide),
   (deadline_boundary goodRecover 51 intentA stateA).2 rfl⟩

/-- C3 counterexample: after a first successful settlement of session
"s1", a second intent for "s1" carrying a valid signature and the
then-current nonce (1), but submitted one time unit after its deadline,
is rejected with "Intent expired" — not with "Already settled" — since
the deadline check precedes the settled-session check in the source. -/
theorem session_replay_expired_cex :
    executePaymentIntent goodRecover 5 intentA stateA =
      Except.ok (settledState intentA stateA) ∧
    goodRecover intentB = intentB.payer ∧
    intentB.nonce = (settledState intentA stateA).nonces intentB.payer ∧
    intentB.sessionId = intentA.sessionId ∧
    executePaymentIntent goodRecover 51 intentB (settledState intentA stateA) =
      Except.error "Intent expired" := by
  exact ⟨rfl, rfl, rfl, rfl, rfl⟩

/-- C3 amended: a session settles at most once. A successful settlement
marks the session settled; once a session is settled no further
settlement of it can succeed, and an attempt whose deadline has not
passed is rejected precisely with "Already settled" (an expired attempt
is rejected with "Intent expired" instead), with the state unchanged,
so the payer is debited exactly once; and no deposit, withdraw or
settle ever returns a settled session to the unsettled state. -/
theorem session_idempotency :
    (∀ (recover : PaymentIntent → Address) (now : Nat) (intent : PaymentIntent)
        (s s2 : EscrowState),
      executePaymentIntent recover now intent s = Except.ok s2 →
      s2.settledSessions intent.sessionId = true) ∧
    (∀ (recover : PaymentIntent → Address) (now : Nat) (intent : PaymentIntent)
        (s : EscrowState),
      s.settledSessions intent.sessionId = true →
      (∀ s2, executePaymentIntent recover now intent s ≠ Except.ok s2) ∧
      (now ≤ intent.deadline →
        executePaymentIntent recover now intent s =
          Except.error "Already settled") ∧
      settleTx recover now intent s = (s, false)) ∧
    (∀ (user : Address) (amt : Nat) (s s2 : EscrowState),
      deposit user amt s = Except.ok s2 →
      s2.settledSessions = s.settledSessions) ∧
    (∀ (user : Address) (amt : Nat) (s s2 : EscrowState),
      withdraw user amt s = Except.ok s2 →
      s2.settledSessions = s.settledSessions) ∧
    (∀ (recover : PaymentIntent → Address) (now : Nat) (intent : PaymentIntent)
        (s : EscrowState) (sid : SessionId),
      s.settledSessions sid = true →
      ((settleTx recover now intent s).1).settledSessions sid = true) := by
  refine ⟨?_, ?_, ?_, ?_, ?_⟩
  · intro recover now intent s s2 h
    rw [executePaymentIntent_ok_iff] at h
    rw [h.2.2.2.2.2.2]
    unfold settledState
    simp [Function.update_same]
  · intro recover now intent s hs
    refine ⟨?_, ?_, ?_⟩
    · intro s2 h
      rw [executePaymentIntent_ok_iff] at h
      rw [hs] at h
      cases h.2.1
    · intro hd
      unfold executePaymentIntent
      rw [if_pos hd, if_pos hs]
    · unfold settleTx
      cases hE : executePaymentIntent recover now intent s with
      | ok s2 =>
        exfalso
        rw [executePaymentIntent_ok_iff] at hE
        rw [hs] at hE
        cases hE.2.1
      | error m => rfl
  · intro user amt s s2 h
    rw [deposit_ok_iff] at h
    rw [h.2.2]
  · intro user amt s s2 h
    rw [withdraw_ok_iff] at h
    rw [h.2.2]
  · intro recover now intent s sid hs
    unfold settleTx
    cases hE : executePaymentIntent recover now intent s with
    | ok s2 =>
      rw [executePaymentIntent_ok_iff] at hE
      rw [hE.2.2.2.2.2.2]
      unfold settledState
      by_cases hsid : sid = intent.sessionId
      · subst hsid
        simp [Function.update_same]
      · simp only [Function.update_noteq hsid]
        exact hs
    | error m => exact hs

/-- Witness for C3: with session "s1" already settled and a live
deadline, the settle attempt is rejected with "Already settled". -/
theorem session_idempotency_witness :
    executePaymentIntent goodRecover 5 intentA stateSettled =
      Except.error "Already settled" :=
  (session_idempotency.2.1 goodRecover 5 intentA stateSettled rfl).2.1
    (by decide)

/-- C9: a successful settle modifies exactly the payer's balance
(decreased by the amount), the payer's nonce (increased by 1), and the
intent's session flag (set); every other balance, nonce and session
flag is unchanged. Deposit and withdraw modify only the calling
account's balance, and never any nonce or session flag. -/
theorem settle_frame :
    (∀ (recover : PaymentIntent → Address) (now : Nat) (intent : PaymentIntent)
        (s s2 : EscrowState),
      executePaymentIntent recover now intent s = Except.ok s2 →
      (s2.escrowBalances intent.payer + intent.amount =
          s.escrowBalances intent.payer ∧
       s2.nonces intent.payer = s.nonces intent.payer + 1 ∧
       s2.settledSessions intent.sessionId = true ∧
       (∀ b, b ≠ intent.payer →
         s2.escrowBalances b = s.escrowBalances b ∧ s2.nonces b = s.nonces b) ∧
       (∀ sid, sid ≠ intent.sessionId →
         s2.settledSessions sid = s.settledSessions sid))) ∧
    (∀ (user : Address) (amt : Nat) (s s2 : EscrowState),
      deposit user amt s = Except.ok s2 →
      (s2.escrowBalances user = s.escrowBalances user + amt ∧
       s2.nonces = s.nonces ∧ s2.settledSessions = s.settledSessions ∧
       ∀ b, b ≠ user → s2.escrowBalances b = s.escrowBalances b)) ∧
    (∀ (user : Address) (amt : Nat) (s s2 : EscrowState),
      withdraw user amt s = Except.ok s2 →
      (s2.escrowBalances user + amt = s.escrowBalances user ∧
       s2.nonces = s.nonces ∧ s2.settledSessions = s.settledSessions ∧
       ∀ b, b ≠ user → s2.escrowBalances b = s.escrowBalances b)) := by
  refine ⟨?_, ?_, ?_⟩
  · intro recover now intent s s2 h
    rw [executePaymentIntent_ok_iff] at h
    obtain ⟨-, -, -, -, -, hbal, hG⟩ := h
    subst hG
    unfold settledState
    refine ⟨?_, ?_, ?_, ?_, ?_⟩
    · simp only [Function.update_same]
      omega
    · simp [Function.update_same]
    · simp [Function.update_same]
    · intro b hb
      exact ⟨Function.update_noteq hb _ _, Function.update_noteq hb _ _⟩
    · intro sid hsid
      exact Function.update_noteq hsid _ _
  · intro user amt s s2 h
    rw [deposit_ok_iff] at h
    obtain ⟨-, -, hG⟩ := h
    subst hG
    refine ⟨by simp [Function.update_same], rfl, rfl, ?_⟩
    intro b hb
    exact Function.update_noteq hb _ _
  · intro user amt s s2 h
    rw [withdraw_ok_iff] at h
    obtain ⟨-, hle, hG⟩ := h
    subst hG
    refine ⟨?_, rfl, rfl, ?_⟩
    · simp only [Function.update_same]
      omega
    · intro b hb
      exact Function.update_noteq hb _ _

/-- Witness for C9 at a concrete successful settlement: payer 7 is
debited by exactly 100, and the nonce of uninvolved account 9 is
untouched. -/
theorem settle_frame_witness :
    (settledState intentA stateA).escrowBalances 7 + 100 =
      stateA.escrowBalances 7 ∧
    (settledState intentA stateA).nonces 9 = stateA.nonces 9 := by
  have h := settle_frame.1 goodRecover 5 intentA stateA
    (settledState intentA stateA) rfl
  exact ⟨h.1, (h.2.2.2.1 9 (by decide)).2⟩

/-- C6 counterexample: on a concrete successful settlement the executed
event sequence places the nonce increment and the session insert
(positions 5 and 6) before the balance check (position 7), so the
claimed discipline — every one of the five validation checks before any
state effect — fails on this run. -/
theorem effects_before_balance_check_cex :
    (executePaymentIntentEvents goodRecover 5 intentA stateA).1 =
      [Ev.checkDeadline, Ev.checkSettled, Ev.checkSignature, Ev.checkNonce,
       Ev.effNonceIncrement, Ev.effSessionInsert, Ev.checkBalance,
       Ev.effBalanceDebit, Ev.effTransferToService] ∧
    evsChecksFirst
        (executePaymentIntentEvents goodRecover 5 intentA stateA).1 = false :=
  ⟨rfl, rfl⟩

/-- C6 amended: every execution of the settle operation produces an
event sequence that is an initial segment of the fixed order: deadline
check, settled check, signature check, nonce check, nonce increment,
session insert, balance check, balance debit, payee transfer. In that
order all five checks precede the balance debit and the value transfer
to the payee, but the nonce increment and the session insert precede
the balance check (a failed balance check reverts the whole call, so
the early writes never survive an error). -/
theorem settle_event_ordering (recover : PaymentIntent → Address) (now : Nat)
    (intent : PaymentIntent) (s : EscrowState) :
    ((executePaymentIntentEvents recover now intent s).1 <+: settleEventOrder) ∧
    (idxIn settleEventOrder Ev.checkDeadline <
        idxIn settleEventOrder Ev.effBalanceDebit ∧
     idxIn settleEventOrder Ev.checkSettled <
        idxIn settleEventOrder Ev.effBalanceDebit ∧
     idxIn settleEventOrder Ev.checkSignature <
        idxIn settleEventOrder Ev.effBalanceDebit ∧
     idxIn settleEventOrder Ev.checkNonce <
        idxIn settleEventOrder Ev.effBalanceDebit ∧
     idxIn settleEventOrder Ev.checkBalance <
        idxIn settleEventOrder Ev.effBalanceDebit ∧
     idxIn settleEventOrder Ev.effBalanceDebit <
        idxIn settleEventOrder Ev.effTransferToService) ∧
    (idxIn settleEventOrder Ev.effNonceIncrement <
        idxIn settleEventOrder Ev.checkBalance ∧
     idxIn settleEventOrder Ev.effSessionInsert <
        idxIn settleEventOrder Ev.checkBalance) := by
  refine ⟨?_, by decide, by decide⟩
  unfold executePaymentIntentEvents settleEventOrder
  dsimp only
  split_ifs <;> exact ⟨_, rfl⟩

/-- Conservation along a run of one account: the final balance plus the
successfully withdrawn and settled amounts equals the initial balance
plus the successfully deposited amounts. -/
theorem runLedger_balance (recover : PaymentIntent → Address) (a : Address) :
    ∀ (ops : List AccountOp) (s : EscrowState),
      (runLedger recover a s ops).escrowBalances a +
          (runTotals recover a s ops).withdrawals +
          (runTotals recover a s ops).settled =
        s.escrowBalances a + (runTotals recover a s ops).deposits := by
  intro ops
  induction ops with
  | nil =>
    intro s
    simp [runLedger, runTotals]
  | cons op rest ih =>
    intro s
    cases op with
    | dep amt =>
      cases hd : deposit a amt s with
      | ok s1 =>
        have hc := (deposit_ok_iff a amt s s1).mp hd
        obtain ⟨-, -, hG⟩ := hc
        have hi := ih s1
        simp [runLedger, runTotals, applyAccountOp, hd] at *
        have hb : s1.escrowBalances a = s.escrowBalances a + amt := by
          rw [hG]; simp [Function.update_same]
        omega
      | error m =>
        have hi := ih s
        simp [runLedger, runTotals, applyAccountOp, hd] at *
        omega
    | wd amt =>
      cases hd : withdraw a amt s with
      | ok s1 =>
        have hc := (withdraw_ok_iff a amt s s1).mp hd
        obtain ⟨-, hle, hG⟩ := hc
        have hi := ih s1
        simp [runLedger, runTotals, applyAccountOp, hd] at *
        have hb : s1.escrowBalances a + amt = s.escrowBalances a := by
          rw [hG]; simp only [Function.update_same]; omega
        omega
      | error m =>
        have hi := ih s
        simp [runLedger, runTotals, applyAccountOp, hd] at *
        omega
    | pay now sid amt dl non sig =>
      cases hE : executePaymentIntent recover now ⟨a, sid, amt, dl, non, sig⟩ s with
      | ok s1 =>
        have hc := (executePaymentIntent_ok_iff recover now
          ⟨a, sid, amt, dl, non, sig⟩ s s1).mp hE
        obtain ⟨-, -, -, -, -, hle, hG⟩ := hc
        have hi := ih s1
        simp [runLedger, runTotals, applyAccountOp, settleTx, hE] at *
        have hb : s1.escrowBalances a + amt = s.escrowBalances a := by
          rw [hG]; unfold settledState; simp only [Function.update_same]; omega
        omega
      | error m =>
        have hi := ih s
        simp [runLedger, runTotals, applyAccountOp, settleTx, hE] at *
        omega

/-- Nonce counting along a run of one account: the final stored nonce
is the initial nonce plus the number of successful settlements. -/
theorem runLedger_nonce (recover : PaymentIntent → Address) (a : Address) :
    ∀ (ops : List AccountOp) (s : EscrowState),
      (runLedger recover a s ops).nonces a =
        s.nonces a + (runTotals recover a s ops).settleCount := by
  intro ops
  induction ops with
  | nil =>
    intro s
    simp [runLedger, runTotals]
  | cons op rest ih =>
    intro s
    cases op with
    | dep amt =>
      cases hd : deposit a amt s with
      | ok s1 =>
        have hc := (deposit_ok_iff a amt s s1).mp hd
        obtain ⟨-, -, hG⟩ := hc
        have hi := ih s1
        simp [runLedger, runTotals, applyAccountOp, hd] at *
        have hn : s1.nonces a = s.nonces a := by rw [hG]
        omega
      | error m =>
        have hi := ih s
        simp [runLedger, runTotals, applyAccountOp, hd] at *
        omega
    | wd amt =>
      cases hd : withdraw a amt s with
      | ok s1 =>
        have hc := (withdraw_ok_iff a amt s s1).mp hd
        obtain ⟨-, -, hG⟩ := hc
        have hi := ih s1
        simp [runLedger, runTotals, applyAccountOp, hd] at *
        have hn : s1.nonces a = s.nonces a := by rw [hG]
        omega
      | error m =>
        have hi := ih s
        simp [runLedger, runTotals, applyAccountOp, hd] at *
        omega
    | pay now sid amt dl non sig =>
      cases hE : executePaymentIntent recover now ⟨a, sid, amt, dl, non, sig⟩ s with
      | ok s1 =>
        have hc := (executePaymentIntent_ok_iff recover now
          ⟨a, sid, amt, dl, non, sig⟩ s s1).mp hE
        obtain ⟨-, -, -, -, -, -, hG⟩ := hc
        have hi := ih s1
        simp [runLedger, runTotals, applyAccountOp, settleTx, hE] at *
        have hn : s1.nonces a = s.nonces a + 1 := by
          rw [hG]; unfold settledState; simp [Function.update_same]
        omega
      | error m =>
        have hi := ih s
        simp [runLedger, runTotals, applyAccountOp, settleTx, hE] at *
        omega

/-- C2: starting from a zero balance, for every finite sequence of
deposit, withdraw and settle operations of one account the final
balance equals the sum of the successfully deposited amounts minus the
successfully withdrawn amounts minus the successfully settled amounts,
and at every point of the sequence that signed quantity is
non-negative (each successful withdraw and each successful settle
requires balance at least the amount before debiting). -/
theorem balance_conservation (recover : PaymentIntent → Address) (a : Address)
    (ops : List AccountOp) (s0 : EscrowState)
    (h0 : s0.escrowBalances a = 0) :
    (((runLedger recover a s0 ops).escrowBalances a : Int) =
        ((runTotals recover a s0 ops).deposits : Int) -
        ((runTotals recover a s0 ops).withdrawals : Int) -
        ((runTotals recover a s0 ops).settled : Int)) ∧
    (∀ n : Nat,
      0 ≤ ((runTotals recover a s0 (ops.take n)).deposits : Int) -
          ((runTotals recover a s0 (ops.take n)).withdrawals : Int) -
          ((runTotals recover a s0 (ops.take n)).settled : Int)) := by
  constructor
  · have h := runLedger_balance recover a ops s0
    rw [h0] at h
    omega
  · intro n
    have h := runLedger_balance recover a (ops.take n) s0
    rw [h0] at h
    omega

/-- Witness for C2 on the concrete run `opsA` from the zero state. -/
theorem balance_conservation_witness :
    ((runLedger goodRecover 7 zeroState opsA).escrowBalances 7 : Int) =
      ((runTotals goodRecover 7 zeroState opsA).deposits : Int) -
      ((runTotals goodRecover 7 zeroState opsA).withdrawals : Int) -
      ((runTotals goodRecover 7 zeroState opsA).settled : Int) :=
  (balance_conservation goodRecover 7 opsA zeroState rfl).1

/-- C4: starting from nonce 0, after a sequence of operations
containing N successful settlements for the account the stored nonce
equals N, regardless of how many rejected or failed attempts occurred
in between (a reverted settle leaves the state unchanged by
`settleTx`), and no successful deposit or withdraw changes any
nonce. -/
theorem nonce_monotonicity (recover : PaymentIntent → Address) (a : Address)
    (ops : List AccountOp) (s0 : EscrowState) (h0 : s0.nonces a = 0) :
    ((runLedger recover a s0 ops).nonces a =
        (runTotals recover a s0 ops).settleCount) ∧
    (∀ (user : Address) (amt : Nat) (s s2 : EscrowState),
      deposit user amt s = Except.ok s2 → s2.nonces = s.nonces) ∧
    (∀ (user : Address) (amt : Nat) (s s2 : EscrowState),
      withdraw user amt s = Except.ok s2 → s2.nonces = s.nonces) := by
  refine ⟨?_, ?_, ?_⟩
  · have h := runLedger_nonce recover a ops s0
    rw [h0] at h
    omega
  · intro user amt s s2 h
    rw [deposit_ok_iff] at h
    rw [h.2.2]
  · intro user amt s s2 h
    rw [withdraw_ok_iff] at h
    rw [h.2.2]

/-- Witness for C4 on the concrete run `opsA` from the zero state. -/
theorem nonce_monotonicity_witness :
    (runLedger goodRecover 7 zeroState opsA).nonces 7 =
      (runTotals goodRecover 7 zeroState opsA).settleCount :=
  (nonce_monotonicity goodRecover 7 opsA zeroState rfl).1

/-- Fields of a successfully normalised intent: payer, session id and
signature pass through unchanged, and the submitted amount is the
normalised amount (a non-negative BigInt encoded as uint256). -/
theorem normalizedIntent_fields (pi : JsIntent) (ci : PaymentIntent)
    (h : normalizedIntent pi = some ci) :
    ci.payer = pi.payer ∧ ci.sessionId = pi.sessionId ∧
    ∃ a, normalizeBigInt pi.amount = some a ∧ 0 ≤ a ∧ ci.amount = a.toNat := by
  unfold normalizedIntent at h
  split at h
  · rename_i a d n ha hd hn
    split at h
    · rename_i a2 d2 n2 hta htd htn
      have hci := Option.some.inj h
      unfold toUint256 at hta
      split at hta
      · rename_i hrange
        have ha2 := Option.some.inj hta
        refine ⟨?_, ?_, a, ha, hrange.1, ?_⟩ <;> rw [← hci, ← ha2]
      · cases hta
    · cases h
  · cases h

/-- C7 counterexample. (a) A request whose intent and service label
are present but whose amount is 0 — not a positive number — is not
rejected as malformed: it passes the structural check, reads the
ledger, is submitted, and settles with amount 0 (the contract's
`executePaymentIntent` has no positivity require), writing the session
registry. (b) A request whose sessionId is the empty string is likewise
not rejected as malformed: it passes the structural check and reads the
payer's balance — against a 50-unit balance it is rejected as
insufficient, showing the outcome depends on a ledger read — and
against a sufficient balance it fails only when the empty string is
encoded as bytes32 for the settled-status call (a 500, no submission,
state unchanged). -/
theorem structural_check_gap_cex :
    (executePayment goodRecover 5 ⟨some jsIntentZeroAmount, some "ai"⟩
        stateA).1 = PaymentOutcome.success 0 "ai" ∧
    (executePayment goodRecover 5 ⟨some jsIntentZeroAmount, some "ai"⟩
        stateA).2.settledSessions sidZero = true ∧
    executePayment goodRecover 5 ⟨some jsIntentEmptySession, some "ai"⟩
        stateA = (PaymentOutcome.txError "invalid BytesLike value", stateA) ∧
    executePayment goodRecover 5 ⟨some jsIntentEmptySession, some "ai"⟩
        state50 = (PaymentOutcome.insufficientBalance 50 100, state50) :=
  ⟨rfl, rfl, rfl, rfl⟩

/-- C7 amended: a request missing `paymentIntent` or `serviceType` (or
carrying the falsy empty-string label) is answered with the malformed
rejection, the ledger state is returned untouched, and the outcome is
independent of the ledger state (no read influences it). Amount
positivity and sessionId non-emptiness are not part of this boundary
check: a request with an empty sessionId (and a convertible amount)
proceeds to the balance read, is rejected as insufficient when the
balance is below the amount, and otherwise gets the 500 BytesLike
encoding error at the settled-status call — never the malformed
rejection, never a submission, and never a state change. -/
theorem malformed_request_no_state :
    (∀ (recover : PaymentIntent → Address) (now : Nat)
        (req : PaymentRequest) (s s2 : EscrowState),
      (req.paymentIntent = none ∨ req.serviceType = none ∨
        req.serviceType = some "") →
      executePayment recover now req s = (PaymentOutcome.malformed, s) ∧
      (executePayment recover now req s).1 =
        (executePayment recover now req s2).1) ∧
    (∀ (recover : PaymentIntent → Address) (now : Nat) (s : EscrowState)
        (pi : JsIntent) (svc : String) (amt : Int),
      svc ≠ "" → pi.sessionId = "" →
      normalizeBigInt pi.amount = some amt →
      executePayment recover now ⟨some pi, some svc⟩ s =
        (if (s.escrowBalances pi.payer : Int) < amt then
          PaymentOutcome.insufficientBalance (s.escrowBalances pi.payer) amt
        else PaymentOutcome.txError "invalid BytesLike value", s)) := by
  constructor
  · intro recover now req s s2 h
    obtain ⟨rpi, rsvc⟩ := req
    rcases h with h | h | h
    · dsimp only at h
      subst h
      exact ⟨rfl, rfl⟩
    · dsimp only at h
      subst h
      cases rpi <;> exact ⟨rfl, rfl⟩
    · dsimp only at h
      subst h
      cases rpi <;> exact ⟨rfl, rfl⟩
  · intro recover now s pi svc amt hsvc hsid hna
    simp only [executePayment]
    rw [if_neg hsvc, hna]
    dsimp only
    by_cases hb : (s.escrowBalances pi.payer : Int) < amt
    · rw [if_pos hb, if_pos hb]
    · rw [if_neg hb, if_neg hb, hsid]
      rfl

/-- Witness for C7 (amended): a request without an intent is rejected
as malformed with the state untouched, and a request with an empty
sessionId and a sufficient balance gets the BytesLike encoding error
with the state untouched. -/
theorem malformed_request_no_state_witness :
    executePayment goodRecover 5 ⟨none, some "ai"⟩ stateA =
      (PaymentOutcome.malformed, stateA) ∧
    executePayment goodRecover 5 ⟨some jsIntentEmptySession, some "ai"⟩
        stateA = (PaymentOutcome.txError "invalid BytesLike value", stateA) := by
  constructor
  · exact (malformed_request_no_state.1 goodRecover 5 ⟨none, some "ai"⟩ stateA
      stateSettled (Or.inl rfl)).1
  · have h := malformed_request_no_state.2 goodRecover 5 stateA
      jsIntentEmptySession "ai" 100 (by decide) rfl rfl
    rw [h]
    rfl

/-- C5 counterexample: a stale-nonce intent passes the orchestrator's
optimistic pre-check (balance sufficient, session unsettled) yet the
ledger's authoritative validation rejects it on the very same state —
no state change separates the two evaluations — so the pre-check and
the authoritative validation do not implement identical logic. -/
theorem precheck_divergence_cex :
    orchestratorPreCheck ciStale stateA = true ∧
    normalizedIntent jsIntentStaleNonce = some ciStale ∧
    executePaymentIntent goodRecover 5 ciStale stateA =
      Except.error "Invalid nonce" ∧
    executePayment goodRecover 5 ⟨some jsIntentStaleNonce, some "ai"⟩ stateA =
      (PaymentOutcome.txError "Invalid nonce", stateA) :=
  ⟨rfl, rfl, rfl, rfl⟩

/-- C5 amended: the orchestrator's pre-check implements only the
balance and already-settled tests of the five checks. In that direction
it agrees with the ledger: whenever the orchestrator rejects at the
pre-check, the ledger's authoritative validation of the intent it would
have submitted also rejects on that same state. The converse fails: a
pre-check accept can be authoritatively rejected on the same state
(expired, invalid signature or stale nonce — see the counterexample). -/
theorem precheck_soundness (recover : PaymentIntent → Address) (now : Nat)
    (req : PaymentRequest) (s : EscrowState) (pi : JsIntent)
    (ci : PaymentIntent)
    (hpi : req.paymentIntent = some pi)
    (hci : normalizedIntent pi = some ci)
    (hrej : (executePayment recover now req s).1.isPreCheckReject = true) :
    ∀ s2, executePaymentIntent recover now ci s ≠ Except.ok s2 := by
  intro s2 hok
  obtain ⟨hpayer, hsid, a, hna, ha0, hamt⟩ := normalizedIntent_fields pi ci hci
  rw [executePaymentIntent_ok_iff] at hok
  obtain ⟨-, hset, -, -, -, hbal, -⟩ := hok
  rw [hpayer, hamt] at hbal
  rw [hsid] at hset
  obtain ⟨rpi, rsvc⟩ := req
  dsimp only at hpi
  subst hpi
  cases rsvc with
  | none => simp [executePayment, PaymentOutcome.isPreCheckReject] at hrej
  | some svc =>
    by_cases hsvc : svc = ""
    · simp [executePayment, hsvc, PaymentOutcome.isPreCheckReject] at hrej
    · simp only [executePayment] at hrej
      rw [if_neg hsvc, hna] at hrej
      dsimp only at hrej
      by_cases hb : (s.escrowBalances pi.payer : Int) < a
      · omega
      · rw [if_neg hb] at hrej
        by_cases hbv : isHexBytes32 pi.sessionId = true
        · rw [if_pos hbv] at hrej
          by_cases hst : s.settledSessions pi.sessionId = true
          · rw [hst] at hset
            cases hset
          · rw [if_neg hst, hci] at hrej
            dsimp only at hrej
            cases hE : executePaymentIntent recover now ci s with
            | ok s3 =>
              rw [hE] at hrej
              simp [PaymentOutcome.isPreCheckReject] at hrej
            | error m =>
              rw [hE] at hrej
              simp [PaymentOutcome.isPreCheckReject] at hrej
        · rw [if_neg hbv] at hrej
          simp [PaymentOutcome.isPreCheckReject] at hrej

/-- Witness for C5 (amended): with every balance at 50 and a 100-unit
intent, the pre-check rejects and settlement on the same state is
impossible. -/
theorem precheck_soundness_witness :
    executePaymentIntent goodRecover 5 intentA state50 ≠
      Except.ok (settledState intentA state50) :=
  precheck_soundness goodRecover 5 ⟨some jsIntentA, some "ai"⟩ state50
    jsIntentA intentA rfl rfl rfl (settledState intentA state50)

/-- C10 counterexample: an amount that is neither a number nor a string
(a plain object) is not coerced to 0: its string form
"[object Object]" fails the BigInt conversion, the handler throws, and
the caught error is reported — the intent is not submitted with
amount 0. -/
theorem amount_object_throws_cex :
    normalizeBigInt (JsVal.obj "[object Object]") = none ∧
    executePayment goodRecover 5 ⟨some jsIntentObjAmount, some "ai"⟩ stateA =
      (PaymentOutcome.txError "Cannot convert to a BigInt", stateA) := by
  have hconv : normalizeBigInt (JsVal.obj "[object Object]") = none := by
    decide
  refine ⟨hconv, ?_⟩
  simp only [executePayment]
  rw [if_neg (by decide : ¬("ai" : String) = "")]
  rw [show normalizeBigInt jsIntentObjAmount.amount = none from hconv]

/-- C10 amended: a request whose paymentIntent has no amount field
(undefined or null) has its amount coerced to 0, the
insufficient-balance pre-check cannot trigger on it (no balance is
below 0), and the intent, when submitted, carries amount 0. An amount
of any other non-number, non-string shape is instead converted via its
string form and the handler throws when that form is not numeric (see
the counterexample). -/
theorem missing_amount_coerced_zero (recover : PaymentIntent → Address)
    (now : Nat) (s : EscrowState) (pi : JsIntent) (svc : String)
    (hamt : pi.amount = JsVal.missing) :
    normalizeBigInt pi.amount = some 0 ∧
    (executePayment recover now ⟨some pi, some svc⟩ s).1.isInsufficient
      = false ∧
    (∀ ci, normalizedIntent pi = some ci → ci.amount = 0) := by
  refine ⟨by rw [hamt]; rfl, ?_, ?_⟩
  · by_cases hsvc : svc = ""
    · simp [executePayment, hsvc, PaymentOutcome.isInsufficient]
    · simp only [executePayment]
      rw [if_neg hsvc, hamt]
      dsimp only [normalizeBigInt]
      rw [if_neg (by omega : ¬((s.escrowBalances pi.payer : Int) < 0))]
      by_cases hbv : isHexBytes32 pi.sessionId = true
      · rw [if_pos hbv]
        by_cases hst : s.settledSessions pi.sessionId = true
        · rw [if_pos hst]
          rfl
        · rw [if_neg hst]
          cases hni : normalizedIntent pi with
          | none => rfl
          | some ci =>
            dsimp only
            cases hE : executePaymentIntent recover now ci s with
            | ok s2 => rfl
            | error m => rfl
      · rw [if_neg hbv]
        rfl
  · intro ci hci
    obtain ⟨-, -, a, hna, -, hamt2⟩ := normalizedIntent_fields pi ci hci
    rw [hamt] at hna
    have ha := Option.some.inj hna
    rw [hamt2, ← ha]
    rfl

/-- Witness for C10 (amended) on a concrete request with no amount
field: the amount normalises to 0 and the insufficient-balance
rejection does not occur. -/
theorem missing_amount_coerced_zero_witness :
    normalizeBigInt jsIntentNoAmount.amount = some 0 ∧
    (executePayment goodRecover 5 ⟨some jsIntentNoAmount, some "ai"⟩
        stateA).1.isInsufficient = false :=
  ⟨(missing_amount_coerced_zero goodRecover 5 stateA jsIntentNoAmount "ai"
      rfl).1,
   (missing_amount_coerced_zero goodRecover 5 stateA jsIntentNoAmount "ai"
      rfl).2.1⟩

end StreamPay
